import Mathlib

/-!
Verification development for `utils/run_uvm_regression.py`, a UVM regression
orchestrator.  The Python source is shallowly embedded below: pure string
processing is translated directly, and every interaction with the outside
world (subprocess invocations, the filesystem, the bazel query) is passed in
as an explicit argument (an oracle), so that each function is a total,
executable Lean definition whose control flow mirrors the Python line by line.
-/

/-! ## Python string primitives

Helpers mirroring the exact semantics of the Python string operations used by
the script: `str.split('\n')`, `str.strip()`, `str.replace`, substring tests,
truthiness of strings and ints, and the `xs[:limit]` slice.
-/

/-- The Unicode whitespace code points of CPython (its internal whitespace
predicate): this is exactly the set matched by `\s` in `re` patterns over
`str` and stripped by `str.strip()`. -/
def pyWsChars : List Char := [
  '\t', '\n', '\x0b', '\x0c', '\r', '\x1c', '\x1d', '\x1e', '\x1f', ' ',
  '\x85', '\u00A0', '\u1680', '\u2000', '\u2001', '\u2002', '\u2003',
  '\u2004', '\u2005', '\u2006', '\u2007', '\u2008', '\u2009', '\u200A',
  '\u2028', '\u2029', '\u202F', '\u205F', '\u3000'
]

/-- Characters matched by Python's `\s` over `str` and stripped by
`str.strip()` (Unicode-aware). -/
def pyWs (c : Char) : Bool :=
  pyWsChars.elem c

/-- Python `str.split(sep)` for a one-character separator: always returns at
least one piece, with empty pieces preserved. -/
def splitOnChar (sep : Char) : List Char → List (List Char)
  | [] => [[]]
  | c :: cs =>
    let r := splitOnChar sep cs
    if c = sep then [] :: r
    else
      match r with
      | [] => [[c]]
      | x :: xs => (c :: x) :: xs

/-- Python `str.strip()` on a character list. -/
def pyStripChars (l : List Char) : List Char :=
  ((l.dropWhile pyWs).reverse.dropWhile pyWs).reverse

/-- Python `str.strip()`. -/
def pyStrip (s : String) : String := ⟨pyStripChars s.data⟩

/-- Infix test on character lists: `pat` occurs contiguously in `l`. -/
def listContainsInfix (pat : List Char) : List Char → Bool
  | [] => pat.isEmpty
  | c :: t => pat.isPrefixOf (c :: t) || listContainsInfix pat t

/-- Python `pat in s` (substring containment). -/
def strContains (s pat : String) : Bool :=
  listContainsInfix pat.data s.data

/-- Python `s.startswith(pre)`. -/
def strStartsWith (s pre : String) : Bool :=
  pre.data.isPrefixOf s.data

/-- Python `s.endswith(suf)`. -/
def strEndsWith (s suf : String) : Bool :=
  suf.data.reverse.isPrefixOf s.data.reverse

/-- Membership of a single character in a string. -/
def hasChar (s : String) (c : Char) : Bool :=
  s.data.any (fun d => d = c)

/-- Python `s.replace(a, b)` for one-character patterns. -/
def replaceChar (a b : Char) (s : String) : String :=
  ⟨s.data.map (fun c => if c = a then b else c)⟩

/-- The reason sanitizer of `run_uvm`:
`reason.replace(',', ';').replace('\n', ' ')` (source lines 328 and 335). -/
def sanitizeReason (s : String) : String :=
  replaceChar '\n' ' ' (replaceChar ',' ';' s)

/-- Python list slice `xs[:limit]` guarded by `if limit:` — `None` and `0` are
falsy and leave the list unchanged; a negative bound counts from the end. -/
def pySliceLimit (limit : Option Int) (xs : List α) : List α :=
  match limit with
  | none => xs
  | some l =>
    if l = 0 then xs
    else if 0 ≤ l then xs.take l.toNat
    else xs.take (xs.length - (-l).toNat)

/-! ## Result classification (`run_uvm`, source lines 308–339)

`classify` is the pure classification of the final attempt's exit code and
combined stdout+stderr text.  The search
`re.search(r"^\s*(UVM_(?:FATAL|ERROR)(?!.*:\s+0\s*$).*)$", output,
re.MULTILINE)` is embedded as follows.  A match anchors at a line start,
`\s*` consumes only whitespace, so the marker `UVM_FATAL`/`UVM_ERROR` must
stand at the first non-whitespace position of its line, and group 1 runs from
the marker to the end of that line (`.` and hence `.*$` stop before `\n`).
The negative lookahead `(?!.*:\s+0\s*$)` is evaluated against the whole
remaining document, not just the marker's line: `.*` stays on the line, but
`\s+` and `\s*` also match `\n`, and the MULTILINE `$` anchors at the end of
any line, so a colon on the marker's line followed by whitespace (possibly
spanning line breaks), the digit `0`, and whitespace up to an end-of-line
suppresses the match.  `re.search` returns the leftmost match, which is the
first line (in order) whose marker survives the lookahead. -/

/-- The regex fragment `\s*$`: some whitespace, then the end of the string or
the position just before a `\n` (MULTILINE `$`). -/
def wsEnd : List Char → Bool
  | [] => true
  | c :: r => if c = '\n' then true else pyWs c && wsEnd r

/-- The regex fragment `\s*0\s*$` entered after at least one whitespace
character has been consumed: skip further whitespace, then require `0`
followed by `\s*$`.  The digit is not whitespace, so the first
non-whitespace character must be the matched `0`. -/
def wsZeroEnd : List Char → Bool
  | [] => false
  | c :: r => if c = '0' then wsEnd r else pyWs c && wsZeroEnd r

/-- The regex fragment `\s+0\s*$`: one whitespace character, then
`\s*0\s*$`. -/
def wsPlusZeroEnd : List Char → Bool
  | [] => false
  | c :: r => pyWs c && wsZeroEnd r

/-- The lookahead body `.*:\s+0\s*$` evaluated at the start of `l` (the
document suffix following the marker): `.*` cannot pass a `\n`, so a `:` must
occur before the first `\n`, with `\s+0\s*$` matching after it; backtracking
over the position of the `:` is the disjunction over all its occurrences. -/
def lookaheadZeroTail : List Char → Bool
  | [] => false
  | c :: r =>
    if c = '\n' then false
    else (if c = ':' then wsPlusZeroEnd r else false) || lookaheadZeroTail r

/-- Reassemble the document suffix contributed by the lines after the current
one: each following line preceded by the `\n` that separated it. -/
def withNewlines (ls : List (List Char)) : List Char :=
  (ls.map (fun l => '\n' :: l)).flatten

/-- One line of output, given the lines that follow it, produces a regex
match: after leading whitespace it starts with `UVM_FATAL` or `UVM_ERROR`,
and the lookahead applied to the rest of the document (rest of the line plus
the following lines) fails. -/
def uvmLineMatch (line : List Char) (following : List (List Char)) : Bool :=
  let rest := line.dropWhile pyWs
  ("UVM_FATAL".data.isPrefixOf rest || "UVM_ERROR".data.isPrefixOf rest)
    && !lookaheadZeroTail (rest.drop 9 ++ withNewlines following)

/-- The leftmost match of the search: group 1 (marker to end of line) of the
first line that matches in the context of its following lines. -/
def findUvmGroup : List (List Char) → Option (List Char)
  | [] => none
  | line :: rest =>
    if uvmLineMatch line rest then some (line.dropWhile pyWs)
    else findUvmGroup rest

/-- Captured group 1 of the regex, stripped (`uvm_err.group(1).strip()`). -/
def extractReason (g : List Char) : String :=
  pyStrip ⟨g⟩

/-- Python `output.strip().split('\n')` followed by
`lines[-1] if lines else "Unknown"` (source lines 324–325).  The `split`
result is never empty, so the `"Unknown"` branch is dead code; it is kept to
mirror the source. -/
def lastLineOfStripped (s : String) : String :=
  match (splitOnChar '\n' (pyStripChars s.data)).getLast? with
  | some l => ⟨l⟩
  | none => "Unknown"

/-- Classification of the final attempt (source lines 308–339): the pure part
of `run_uvm` mapping `(result.returncode, output)` to `(status, reason)`. -/
def classify (returncode : Int) (output : String) : String × String :=
  let uvm_err := findUvmGroup (splitOnChar '\n' output.data)
  if returncode ≠ 0 then
    let reason :=
      match uvm_err with
      | some g => extractReason g
      | none =>
        if strContains output "AXI_DECERR" then "AXI_DECERR detected"
        else "Make failed: " ++ lastLineOfStripped output
    ("FAIL", sanitizeReason reason)
  else
    match uvm_err with
    | some g => ("FAIL", sanitizeReason (extractReason g))
    | none => ("PASS", "None")

example : classify 0 "UVM_ERROR : 0" = ("PASS", "None") := by decide
example : classify 0 "x\nUVM_ERROR bad" = ("FAIL", "UVM_ERROR bad") := by decide
example : classify 2 "AXI_DECERR" = ("FAIL", "AXI_DECERR detected") := by decide
example : classify 1 "oops" = ("FAIL", "Make failed: oops") := by decide
example : classify 1 "" = ("FAIL", "Make failed: ") := by decide
example : classify 0 "  UVM_FATAL a(1) @ 5: boom, end" =
    ("FAIL", "UVM_FATAL a(1) @ 5: boom; end") := by decide
example : classify 0 "UVM_ERROR a:\n0" = ("PASS", "None") := by decide
example : classify 0 "UVM_ERROR a: \n \n 0 \nx" = ("PASS", "None") := by decide
example : classify 1 "a\u00A0" = ("FAIL", "Make failed: a") := by decide
example : classify 0 "\u00A0UVM_ERROR x" = ("FAIL", "UVM_ERROR x") := by decide
example : classify 0 "UVM_ERROR : 0\u00A0" = ("PASS", "None") := by decide
example : classify 0 "UVM_ERROR a:\nx0" = ("FAIL", "UVM_ERROR a:") := by decide

/-! ## Simulator invocation with license retry (`run_uvm`, source lines 254–342)

The subprocess call of each attempt is an oracle
`attempts : Nat → Except String (Int × String)`: attempt `a` either raises
(the `except` branch, carrying `str(e)`) or yields
`(result.returncode, result.stdout + result.stderr)`. -/

/-- The retry condition of source line 291:
`result.returncode != 0 and "1-800-VERILOG" in output`. -/
def licenseRetry (returncode : Int) (output : String) : Bool :=
  returncode ≠ 0 && strContains output "1-800-VERILOG"

/-- The attempt loop of source lines 283–302.  `a` is the current attempt
number, `fuel` the number of retries still allowed (`max_retries - attempt`).
Returns the attempt number together with either the exception text or the
final `(returncode, output)`. -/
def runLoop (attempts : Nat → Except String (Int × String)) :
    Nat → Nat → Except (Nat × String) (Nat × Int × String)
  | a, 0 =>
    match attempts a with
    | .error e => .error (a, e)
    | .ok (rc, out) => .ok (a, rc, out)
  | a, fuel + 1 =>
    match attempts a with
    | .error e => .error (a, e)
    | .ok (rc, out) =>
      if licenseRetry rc out then runLoop attempts (a + 1) fuel
      else .ok (a, rc, out)

/-- `run_uvm` (source lines 254–342): `elfExists` is the
`os.path.exists(elf_path)` test of line 260; on the missing-artifact
short-circuit no attempt is made.  With `max_retries = 3` the loop starts at
attempt 1 with 2 retries in reserve.  Returns `(status, reason, raw_log)`. -/
def run_uvm (elfExists : Bool) (attempts : Nat → Except String (Int × String)) :
    String × String × String :=
  if elfExists then
    match runLoop attempts 1 2 with
    | .error (_, e) => ("EXEC_FAIL", e, "")
    | .ok (_, rc, out) => ((classify rc out).1, (classify rc out).2, out)
  else ("BUILD_ARTIFACT_MISSING", "ELF file not found", "")

/-- Number of subprocess invocations (`subprocess.run` calls) performed by
`run_uvm`: zero on the missing-artifact short-circuit, otherwise the number of
the attempt the loop stopped at. -/
def run_uvm_attempt_count (elfExists : Bool)
    (attempts : Nat → Except String (Int × String)) : Nat :=
  if elfExists then
    match runLoop attempts 1 2 with
    | .error (a, _) => a
    | .ok (a, _, _) => a
  else 0

/-! ## Golden-trace generation (`generate_spike_log`, source lines 217–251)

Each effect of the body is an oracle: opening the log file, launching the
child, the first `process.wait(timeout=timeout)` (which may time out, exit
with a code, or raise some other exception), and — on the timeout path — the
`os.killpg` call and the second `process.wait(timeout=5)`. -/

/-- Outcome of the first `process.wait(timeout=timeout)` call. -/
inductive WaitOutcome where
  | timedOut
  | exited (code : Int)
  | raised (msg : String)

/-- `generate_spike_log` (source lines 217–251): any exception anywhere is
caught by the outer `except` and yields `False`; a timeout yields `False`
after killing the process group; a non-zero exit code yields `False`; only a
clean zero exit yields `True`. -/
def generate_spike_log (openR : Except String Unit) (popenR : Except String Unit)
    (waitR : WaitOutcome) (killR : Except String Unit)
    (wait2R : Except String Unit) : Bool :=
  match openR with
  | .error _ => false
  | .ok _ =>
    match popenR with
    | .error _ => false
    | .ok _ =>
      match waitR with
      | .raised _ => false
      | .timedOut =>
        match killR with
        | .error _ => false
        | .ok _ =>
          match wait2R with
          | .error _ => false
          | .ok _ => false
      | .exited code => if code ≠ 0 then false else true

/-! ## Target discovery (`get_targets`, source lines 92–143) -/

/-- The `DENYLIST` global of source lines 37–53. -/
def DENYLIST : List String := [
  "//tests/cocotb/tutorial/counters:inst_cycle_counter_example",
  "//tests/cocotb/coralnpu_isa:perf_counters",
  "//tests/cocotb/rvv:vill_test",
  "//tests/cocotb:vector_store",
  "//tests/cocotb:vector_store_fault",
  "//third_party/riscv-tests:rv32ui-p-fence_i",
  "//third_party/riscv-tests:rv32ui-v-fence_i",
  "//tests/cocotb/rvv:vmsif_test",
  "//tests/cocotb/rvv:vmsbf_test",
  "//tests/cocotb/rvv/load_store:load_unit_masked",
  "//tests/cocotb/rvv/load_store:store_unit_masked"
]

/-- One `rule` element of the bazel query XML: its `name` attribute and its
optional `linker_script` label attribute. -/
structure BazelRule where
  name : String
  linker_script : Option String

/-- The expected default linker script of source lines 116–129:
`<package>:<name>.ld`, where for a name without `:` the package is the whole
label and the short name is its last `/` component. -/
def expectedLinkerScript (t : String) : String :=
  if strContains t ":" then
    let parts := (splitOnChar ':' t.data).map (fun l => (⟨l⟩ : String))
    (parts.headD "") ++ ":" ++ (parts.getD 1 "") ++ ".ld"
  else
    t ++ ":" ++ (((splitOnChar '/' t.data).map (fun l => (⟨l⟩ : String))).getLastD "")
      ++ ".ld"

/-- The per-rule filter of the discovery loop (source lines 104–138): skip
denylisted names, skip rules without a `linker_script` attribute, keep a rule
only when its linker script equals the expected default. -/
def targetCandidate (r : BazelRule) : Option String :=
  if r.name ∈ DENYLIST then none
  else
    match r.linker_script with
    | none => none
    | some ls => if ls = expectedLinkerScript r.name then some r.name else none

/-- The sorted discovery result (source line 140). -/
def discoverTargets (rules : List BazelRule) : List String :=
  List.insertionSort (fun a b : String => a ≤ b) (rules.filterMap targetCandidate)

/-- `get_targets` (source lines 92–143): with a truthy `target` override
return it alone; otherwise filter and sort the queried rules, then apply the
truthy-guarded `targets[:limit]` slice. -/
def get_targets (limit : Option Int) (target : Option String)
    (rules : List BazelRule) : List String :=
  match target with
  | some t =>
    if t ≠ "" then [t]
    else pySliceLimit limit (discoverTargets rules)
  | none => pySliceLimit limit (discoverTargets rules)

/-! ## Conformance-suite artifacts (`get_riscv_test_artifacts`, source
lines 345–380)

The directory walk is supplied as the list of `(root, filename)` pairs it
yields. -/

/-- Lexicographic order on pairs of strings, as used by Python's `sorted` on
2-tuples. -/
def pairLe (a b : String × String) : Prop :=
  a.1 < b.1 ∨ (a.1 = b.1 ∧ a.2 ≤ b.2)

instance : DecidableRel pairLe := fun a b => by
  unfold pairLe; infer_instance

/-- The per-file filter of the walk loop (source lines 365–378): skip `.dump`
files, keep `rv32*` files, synthesize the pseudo-target
`//third_party/riscv-tests:<name>`, and drop denylisted pseudo-targets. -/
def riscvCandidate (rootFile : String × String) : Option (String × String) :=
  if strEndsWith rootFile.2 ".dump" then none
  else if strStartsWith rootFile.2 "rv32" then
    if ("//third_party/riscv-tests:" ++ rootFile.2) ∈ DENYLIST then none
    else some ("//third_party/riscv-tests:" ++ rootFile.2,
      rootFile.1 ++ "/" ++ rootFile.2)
  else none

/-- `get_riscv_test_artifacts` (source lines 345–380): filter the walked
files and sort the `(pseudo_target, path)` pairs. -/
def get_riscv_test_artifacts (files : List (String × String)) :
    List (String × String) :=
  List.insertionSort pairLe (files.filterMap riscvCandidate)

/-! ## Test preparation (`prepare_tests`, source lines 449–490) -/

/-- The filter `if args.target and args.target != t: continue` (truthiness of
the `--target` flag included). -/
def targetMatches (argTarget : Option String) (t : String) : Bool :=
  match argTarget with
  | none => true
  | some a => if a = "" then true else a = t

/-- `prepare_tests` (source lines 449–490): riscv artifacts first (unless
skipped), then standard targets whose resolved ELF path is truthy
(`get_elf_source_path` is the `resolve` oracle; `if elf:` drops both `None`
and the empty string), then the truthy-guarded global `[:limit]` slice. -/
def prepare_tests (skipRiscvTests : Bool) (argTarget : Option String)
    (limit : Option Int) (standard_targets : List String)
    (riscvArtifacts : List (String × String))
    (resolve : String → Option String) : List (String × String) :=
  let tests1 :=
    if skipRiscvTests then []
    else riscvArtifacts.filter (fun te => targetMatches argTarget te.1)
  let tests2 := standard_targets.filterMap (fun t =>
    if targetMatches argTarget t then
      match resolve t with
      | some elf => if elf = "" then none else some (t, elf)
      | none => none
    else none)
  pySliceLimit limit (tests1 ++ tests2)

/-! ## Orchestrator (`run_full_regression`, source lines 540–657)

What the environment does for one test case is a `TestEnv`: whether the
source ELF path is truthy and exists (line 560), the outcome of the
copy/chmod/entry-point/spike-log block (lines 566–609), and the behaviour of
the simulator attempts inside `run_uvm` (`copiedElfExists` is line 260's
existence test on the freshly copied ELF). -/

structure TestEnv where
  elfPresent : Bool
  setup : Except String Unit
  copiedElfExists : Bool
  attempts : Nat → Except String (Int × String)

/-- Per-test processing of source lines 557–622, returning
`(status, reason, log)`. -/
def processTest (e : TestEnv) : String × String × String :=
  if e.elfPresent then
    match e.setup with
    | .error m => ("FAIL", "Copy/Setup failed: " ++ m, m)
    | .ok _ => run_uvm e.copiedElfExists e.attempts
  else ("FAIL", "ELF source not found (Build failed?)", "")

/-- The report rows (source lines 631–636): `(target, status, reason)` per
processed test case, in order. -/
def regressionRows (tests : List (String × TestEnv)) :
    List (String × String × String) :=
  tests.map (fun te => (te.1, (processTest te.2).1, (processTest te.2).2.1))

/-- The final exit decision of source lines 656–657:
`if status == "FAIL": sys.exit(1)`.  The variable `status` holds the value
from the last loop iteration; with no iterations it is unbound and the line
raises `NameError`, modelled as `none`. -/
def regressionExit (tests : List (String × TestEnv)) : Option Nat :=
  match (tests.map (fun te => (processTest te.2).1)).getLast? with
  | none => none
  | some s => some (if s = "FAIL" then 1 else 0)

example :
    get_targets none none
      [⟨"//b:u", some "custom.ld"⟩, ⟨"//a:t", some "//a:t.ld"⟩, ⟨"//c:v", none⟩]
      = ["//a:t"] := by decide

example : expectedLinkerScript "//tests/cocotb:align_test" =
    "//tests/cocotb:align_test.ld" := by decide

example : run_uvm true (fun _ => Except.ok (1, "call 1-800-VERILOG now")) =
    ("FAIL", "Make failed: call 1-800-VERILOG now", "call 1-800-VERILOG now") := by
  decide

example : run_uvm_attempt_count true (fun _ => Except.ok (1, "1-800-VERILOG")) = 3 := by
  decide

example : run_uvm_attempt_count true (fun _ => Except.ok (1, "boom")) = 1 := by decide

/-! ## Helper lemmas -/

lemma string_data_mk (l : List Char) : (String.mk l).data = l := rfl

lemma splitOnChar_ne_nil (sep : Char) (l : List Char) : splitOnChar sep l ≠ [] := by
  induction l with
  | nil => simp [splitOnChar]
  | cons c cs ih =>
    simp only [splitOnChar]
    split
    · simp
    · match h : splitOnChar sep cs with
      | [] => exact absurd h ih
      | x :: xs => simp

lemma single_decomp {α} {a x : α} {p1 p2 : List α} (h : [a] = p1 ++ x :: p2) :
    p1 = [] ∧ x = a ∧ p2 = [] := by
  cases p1 with
  | nil => injection h with h1 h2; exact ⟨rfl, h1.symm, h2.symm⟩
  | cons b t =>
    injection h with h1 h2
    exact absurd h2.symm (by simp)

lemma findUvmGroup_eq_none {ls : List (List Char)}
    (h : ∀ p1 x p2, ls = p1 ++ x :: p2 → uvmLineMatch x p2 = false) :
    findUvmGroup ls = none := by
  induction ls with
  | nil => rfl
  | cons a t ih =>
    have ha : uvmLineMatch a t = false := h [] a t rfl
    simp [findUvmGroup, ha]
    exact ih (fun p1 x p2 hp => h (a :: p1) x p2 (by rw [hp]; rfl))

lemma findUvmGroup_append {pre : List (List Char)} {l : List Char}
    {post : List (List Char)}
    (hpre : ∀ p1 x p2, pre = p1 ++ x :: p2 →
      uvmLineMatch x (p2 ++ l :: post) = false)
    (hl : uvmLineMatch l post = true) :
    findUvmGroup (pre ++ l :: post) = some (l.dropWhile pyWs) := by
  induction pre with
  | nil => simp [findUvmGroup, hl]
  | cons a t ih =>
    have ha : uvmLineMatch a (t ++ l :: post) = false := hpre [] a t rfl
    simp [findUvmGroup, ha]
    exact ih (fun p1 x p2 hp => hpre (a :: p1) x p2 (by rw [hp]; rfl))

lemma mem_pySliceLimit {α} {limit : Option Int} {xs : List α} {x : α}
    (h : x ∈ pySliceLimit limit xs) : x ∈ xs := by
  rcases limit with _ | l
  · exact h
  · simp only [pySliceLimit] at h
    split_ifs at h
    · exact h
    · exact List.take_subset _ _ h
    · exact List.take_subset _ _ h

lemma sanitize_data_no_comma (l : List Char) :
    ((l.map (fun c => if c = ',' then ';' else c)).map
        (fun c => if c = '\n' then ' ' else c)).any (fun d => d = ',') = false := by
  induction l with
  | nil => rfl
  | cons c t ih =>
    simp only [List.map_cons, List.any_cons, ih, Bool.or_false]
    by_cases hc : c = ','
    · subst hc; decide
    · by_cases hn : c = '\n'
      · subst hn; decide
      · simp [hc, hn]

lemma sanitize_data_no_nl (l : List Char) :
    ((l.map (fun c => if c = ',' then ';' else c)).map
        (fun c => if c = '\n' then ' ' else c)).any (fun d => d = '\n') = false := by
  induction l with
  | nil => rfl
  | cons c t ih =>
    simp only [List.map_cons, List.any_cons, ih, Bool.or_false]
    by_cases hc : c = ','
    · subst hc; decide
    · by_cases hn : c = '\n'
      · subst hn; decide
      · simp [hc, hn]

lemma sanitizeReason_clean (s : String) :
    hasChar (sanitizeReason s) ',' = false ∧ hasChar (sanitizeReason s) '\n' = false :=
  ⟨sanitize_data_no_comma s.data, sanitize_data_no_nl s.data⟩

lemma targetCandidate_some {r : BazelRule} {t : String}
    (h : targetCandidate r = some t) :
    t = r.name ∧ r.name ∉ DENYLIST ∧
      r.linker_script = some (expectedLinkerScript r.name) := by
  rcases r with ⟨nm, lsc⟩
  rcases lsc with _ | ls
  · simp [targetCandidate] at h
  · simp only [targetCandidate] at h
    split_ifs at h with hd he
    injection h with h2
    exact ⟨h2.symm, hd, by rw [he]⟩

lemma riscvCandidate_notDenied {rf : String × String} {pr : String × String}
    (h : riscvCandidate rf = some pr) : pr.1 ∉ DENYLIST := by
  unfold riscvCandidate at h
  split_ifs at h with h1 h2 h3
  injection h with h4
  rw [← h4]
  exact h3

lemma get_targets_none (limit : Option Int) (rules : List BazelRule) :
    get_targets limit none rules = pySliceLimit limit (discoverTargets rules) := rfl

/-! ## Claim theorems -/

/-- C10: `generate_spike_log` is total — it returns a boolean for every
combination of effect outcomes and never propagates an exception; it returns
`true` exactly when the log file opens, the child launches, and the first wait
returns exit code 0, so every exceptional path (unopenable log path, launch
failure, timeout, or any exception while waiting or killing) yields `false`.
Totality is by construction: `generate_spike_log` is a total Lean function
over all effect outcomes, including every `.error`/`.raised` case. -/
theorem generate_spike_log_total (openR popenR : Except String Unit)
    (waitR : WaitOutcome) (killR wait2R : Except String Unit) :
    generate_spike_log openR popenR waitR killR wait2R = true ↔
      openR = .ok () ∧ popenR = .ok () ∧ waitR = .exited 0 := by
  cases openR with
  | error e => simp [generate_spike_log]
  | ok u =>
    cases popenR with
    | error e => simp [generate_spike_log]
    | ok v =>
      cases waitR with
      | raised m => simp [generate_spike_log]
      | timedOut =>
        cases killR with
        | error e => simp [generate_spike_log]
        | ok w =>
          cases wait2R with
          | error e => simp [generate_spike_log]
          | ok z => simp [generate_spike_log]
      | exited code =>
        simp only [generate_spike_log, WaitOutcome.exited.injEq]
        split_ifs with hc
        · simp [hc]
        · simp_all

/-- C7: for a nonexistent artifact path, `run_uvm` short-circuits to
`BUILD_ARTIFACT_MISSING` with no subprocess invocation: the result is the
fixed triple for every behaviour of the attempt oracle (which is never
consulted), the invocation count is 0, and no exception can escape since the
function is total by construction. -/
theorem run_uvm_missing_artifact
    (attempts : Nat → Except String (Int × String)) :
    run_uvm false attempts = ("BUILD_ARTIFACT_MISSING", "ELF file not found", "")
      ∧ run_uvm_attempt_count false attempts = 0 :=
  ⟨rfl, rfl⟩

/-- C6 (amended): only the reasons produced by result classification are
sanitized — for every exit code and output, the classifier's reason (both the
`FAIL` reasons and the `PASS` sentinel) contains no comma and no newline, and
the fixed `BUILD_ARTIFACT_MISSING` reason is clean; but the `EXEC_FAIL` reason
and the orchestrator's copy/setup-exception reason pass the exception text
through without any sanitization. -/
theorem reason_sanitization (rc : Int) (out : String) :
    (hasChar (classify rc out).2 ',' = false
      ∧ hasChar (classify rc out).2 '\n' = false)
      ∧ (∀ e : String,
          run_uvm true (fun _ => Except.error e) = ("EXEC_FAIL", e, ""))
      ∧ (∀ (m : String) (b : Bool) (f : Nat → Except String (Int × String)),
          processTest ⟨true, Except.error m, b, f⟩
            = ("FAIL", "Copy/Setup failed: " ++ m, m))
      ∧ hasChar "ELF file not found" ',' = false
      ∧ hasChar "ELF file not found" '\n' = false := by
  refine ⟨?_, fun e => rfl, fun m b f => rfl, by decide, by decide⟩
  unfold classify
  rcases h : findUvmGroup (splitOnChar '\n' out.data) with _ | g <;>
    by_cases hrc : rc ≠ 0
  all_goals simp [h, hrc, sanitizeReason_clean]
  all_goals decide

/-- C6 counterexample: the claim that every report-row reason is sanitized is
false — an exception whose text contains a comma reaches the `EXEC_FAIL` row
reason verbatim (source line 305 returns `str(e)` with no sanitization). -/
theorem reason_sanitization_counterexample :
    (processTest ⟨true, Except.ok (), true, fun _ => Except.error "boom, bang"⟩).2.1
        = "boom, bang"
      ∧ hasChar "boom, bang" ',' = true := by
  exact ⟨rfl, rfl⟩

/-- C3 (amended): for a non-zero exit code with no UVM error/fatal marker line
matched, if the bus-decode marker `AXI_DECERR` appears anywhere in the output
the status is `FAIL` with reason exactly `"AXI_DECERR detected"`; otherwise
the status is `FAIL` with reason `"Make failed: "` followed by the last line
of the whitespace-stripped output (sanitized) — the `"Unknown"` fallback of
source line 325 is unreachable because `str.split` never returns an empty
list. -/
theorem classify_nonzero_no_marker (rc : Int) (out : String)
    (hrc : rc ≠ 0)
    (hnm : ∀ p1 x p2, splitOnChar '\n' out.data = p1 ++ x :: p2 →
      uvmLineMatch x p2 = false) :
    (strContains out "AXI_DECERR" = true →
        classify rc out = ("FAIL", "AXI_DECERR detected"))
      ∧ (strContains out "AXI_DECERR" = false →
        classify rc out
          = ("FAIL", sanitizeReason ("Make failed: " ++ lastLineOfStripped out)))
      ∧ 1 ≤ (splitOnChar '\n' (pyStripChars out.data)).length := by
  have hfind : findUvmGroup (splitOnChar '\n' out.data) = none :=
    findUvmGroup_eq_none hnm
  refine ⟨fun hx => ?_, fun hx => ?_, ?_⟩
  · simp [classify, hfind, hrc, hx]
    decide
  · simp [classify, hfind, hrc, hx]
  · have := splitOnChar_ne_nil '\n' (pyStripChars out.data)
    cases hsp : splitOnChar '\n' (pyStripChars out.data) with
    | nil => exact absurd hsp this
    | cons a t => simp

/-- C3 witness: the amended theorem applied at exit code 1 and output
`"oops"`, which has no marker line and no decode marker. -/
theorem classify_nonzero_no_marker_witness :
    classify 1 "oops" = ("FAIL", "Make failed: oops") := by
  have hsp : splitOnChar '\n' ("oops" : String).data
      = [("oops" : String).data] := by decide
  have hnm : ∀ p1 x p2, splitOnChar '\n' ("oops" : String).data = p1 ++ x :: p2 →
      uvmLineMatch x p2 = false := by
    intro p1 x p2 hp
    rw [hsp] at hp
    obtain ⟨h1, h2, h3⟩ := single_decomp hp
    rw [h2, h3]
    decide
  have h := (classify_nonzero_no_marker 1 "oops" (by decide) hnm).2.1 (by decide)
  exact h.trans (by decide)

/-- C3 counterexample: at exit code 2 with output `"AXI_DECERR"` (no marker
line matched, decode marker present) the code produces reason
`"AXI_DECERR detected"`, not `"decode error detected"` as the claim states. -/
theorem classify_decode_reason_counterexample :
    classify 2 "AXI_DECERR" = ("FAIL", "AXI_DECERR detected")
      ∧ classify 2 "AXI_DECERR" ≠ ("FAIL", "decode error detected")
      ∧ findUvmGroup (splitOnChar '\n' ("AXI_DECERR" : String).data) = none
      ∧ strContains "AXI_DECERR" "AXI_DECERR" = true := by decide

/-- C5 (amended): for exit code 0, if some line of the output begins (after
leading whitespace) with the UVM error/fatal marker and survives the
zero-count negative lookahead (no colon on that line followed by whitespace —
possibly spanning line breaks — the digit 0, and whitespace up to an
end-of-line), the status is `FAIL` with reason equal to the first such line
taken from the marker to the end of the line, trimmed and then sanitized
(commas become semicolons, newlines become spaces); otherwise — in particular
for outputs containing only zero-count summary lines — the status is `PASS`
with the sentinel reason `"None"`. -/
theorem classify_zero_exit (out : String) :
    (∀ (pre : List (List Char)) (l : List Char) (post : List (List Char)),
        splitOnChar '\n' out.data = pre ++ l :: post →
        (∀ p1 x p2, pre = p1 ++ x :: p2 →
          uvmLineMatch x (p2 ++ l :: post) = false) →
        uvmLineMatch l post = true →
        classify 0 out
          = ("FAIL", sanitizeReason (extractReason (l.dropWhile pyWs))))
      ∧ ((∀ p1 x p2, splitOnChar '\n' out.data = p1 ++ x :: p2 →
          uvmLineMatch x p2 = false) →
        classify 0 out = ("PASS", "None")) := by
  constructor
  · intro pre l post heq hpre hl
    have hfind : findUvmGroup (splitOnChar '\n' out.data)
        = some (l.dropWhile pyWs) := by
      rw [heq]
      exact findUvmGroup_append hpre hl
    simp [classify, hfind]
  · intro hall
    have hfind : findUvmGroup (splitOnChar '\n' out.data) = none :=
      findUvmGroup_eq_none hall
    simp [classify, hfind]

/-- C5 witness: the amended theorem applied to an output whose second line is
a marker line, and to an output consisting only of a zero-count summary. -/
theorem classify_zero_exit_witness :
    classify 0 "x\nUVM_ERROR boom" = ("FAIL", "UVM_ERROR boom")
      ∧ classify 0 "UVM_ERROR : 0" = ("PASS", "None") := by
  constructor
  · have hpre : ∀ p1 x p2, [("x" : String).data] = p1 ++ x :: p2 →
        uvmLineMatch x (p2 ++ ("UVM_ERROR boom" : String).data :: []) = false := by
      intro p1 x p2 hp
      obtain ⟨h1, h2, h3⟩ := single_decomp hp
      rw [h2, h3]
      decide
    have h := (classify_zero_exit "x\nUVM_ERROR boom").1 [("x" : String).data]
      ("UVM_ERROR boom" : String).data [] (by decide) hpre (by decide)
    exact h.trans (by decide)
  · have hsp : splitOnChar '\n' ("UVM_ERROR : 0" : String).data
        = [("UVM_ERROR : 0" : String).data] := by decide
    refine (classify_zero_exit "UVM_ERROR : 0").2 ?_
    intro p1 x p2 hp
    rw [hsp] at hp
    obtain ⟨h1, h2, h3⟩ := single_decomp hp
    rw [h2, h3]
    decide

/-- C5 counterexample: the claim that the reason equals the first matching
line, trimmed, is false — a comma in the marker line is replaced by a
semicolon by the sanitizer before the reason is returned. -/
theorem classify_zero_exit_counterexample :
    classify 0 "UVM_ERROR a,b" = ("FAIL", "UVM_ERROR a;b")
      ∧ classify 0 "UVM_ERROR a,b" ≠ ("FAIL", "UVM_ERROR a,b")
      ∧ uvmLineMatch ("UVM_ERROR a,b" : String).data [] = true
      ∧ pyStrip "UVM_ERROR a,b" = "UVM_ERROR a,b" := by decide

/-- The attempt oracle of a subprocess that never raises, with per-attempt
outcomes `(returncode, combined output)` given by `f`. -/
def okAttempts (f : Nat → Int × String) : Nat → Except String (Int × String) :=
  fun a => Except.ok (f a)

/-- The number of the attempt whose outcome `run_uvm` classifies, for a
non-raising subprocess. -/
def lastAttempt (f : Nat → Int × String) : Nat :=
  run_uvm_attempt_count true (okAttempts f)

/-- C4: for every sequence of attempt outcomes, `run_uvm` makes between 1 and
3 attempts; every attempt before the last satisfied the retry condition
(non-zero exit and license marker in the combined output); if the loop
stopped before the 3rd attempt, the last attempt did not satisfy it; and the
returned result is always the classification of the last attempt's output
(with that output as the raw log) — including when all 3 attempts fail with
the license marker. -/
theorem run_uvm_retry_policy (f : Nat → Int × String) :
    (1 ≤ lastAttempt f ∧ lastAttempt f ≤ 3)
      ∧ (∀ i, 1 ≤ i → i < lastAttempt f → licenseRetry (f i).1 (f i).2 = true)
      ∧ (lastAttempt f < 3 →
          licenseRetry (f (lastAttempt f)).1 (f (lastAttempt f)).2 = false)
      ∧ run_uvm true (okAttempts f)
          = ((classify (f (lastAttempt f)).1 (f (lastAttempt f)).2).1,
             (classify (f (lastAttempt f)).1 (f (lastAttempt f)).2).2,
             (f (lastAttempt f)).2) := by
  have e2 : runLoop (okAttempts f) 1 2
      = if licenseRetry (f 1).1 (f 1).2 then runLoop (okAttempts f) 2 1
        else .ok (1, (f 1).1, (f 1).2) := rfl
  have e1 : runLoop (okAttempts f) 2 1
      = if licenseRetry (f 2).1 (f 2).2 then runLoop (okAttempts f) 3 0
        else .ok (2, (f 2).1, (f 2).2) := rfl
  have e0 : runLoop (okAttempts f) 3 0 = .ok (3, (f 3).1, (f 3).2) := rfl
  cases h1 : licenseRetry (f 1).1 (f 1).2 with
  | false =>
    have hL : runLoop (okAttempts f) 1 2 = .ok (1, (f 1).1, (f 1).2) := by
      rw [e2, h1]; simp
    have hn : lastAttempt f = 1 := by
      simp [lastAttempt, run_uvm_attempt_count, hL]
    refine ⟨⟨by omega, by omega⟩, ?_, ?_, ?_⟩
    · intro i hi1 hi2; rw [hn] at hi2; omega
    · intro _; rw [hn]; exact h1
    · rw [hn]; simp [run_uvm, hL]
  | true =>
    cases h2 : licenseRetry (f 2).1 (f 2).2 with
    | false =>
      have hL : runLoop (okAttempts f) 1 2 = .ok (2, (f 2).1, (f 2).2) := by
        rw [e2, h1]; simp only [if_true]; rw [e1, h2]; simp
      have hn : lastAttempt f = 2 := by
        simp [lastAttempt, run_uvm_attempt_count, hL]
      refine ⟨⟨by omega, by omega⟩, ?_, ?_, ?_⟩
      · intro i hi1 hi2
        rw [hn] at hi2
        have : i = 1 := by omega
        rw [this]; exact h1
      · intro _; rw [hn]; exact h2
      · rw [hn]; simp [run_uvm, hL]
    | true =>
      have hL : runLoop (okAttempts f) 1 2 = .ok (3, (f 3).1, (f 3).2) := by
        rw [e2, h1]; simp only [if_true]; rw [e1, h2]; simp only [if_true]
        exact e0
      have hn : lastAttempt f = 3 := by
        simp [lastAttempt, run_uvm_attempt_count, hL]
      refine ⟨⟨by omega, by omega⟩, ?_, ?_, ?_⟩
      · intro i hi1 hi2
        rw [hn] at hi2
        rcases (by omega : i = 1 ∨ i = 2) with h | h
        · rw [h]; exact h1
        · rw [h]; exact h2
      · intro hlt; rw [hn] at hlt; omega
      · rw [hn]; simp [run_uvm, hL]

/-- C4 witness: a subprocess that always exits nonzero with the license
marker is invoked exactly 3 times, and the returned result reflects the 3rd
attempt's output. -/
theorem run_uvm_retry_policy_witness :
    lastAttempt (fun _ => (1, "ERROR 1-800-VERILOG license")) = 3
      ∧ run_uvm true (okAttempts (fun _ => (1, "ERROR 1-800-VERILOG license")))
        = ("FAIL", "Make failed: ERROR 1-800-VERILOG license",
           "ERROR 1-800-VERILOG license") := by
  have h := run_uvm_retry_policy (fun _ => (1, "ERROR 1-800-VERILOG license"))
  exact ⟨by decide, h.2.2.2.trans (by decide)⟩

/-- C8: with the `--target` override unset, a denylisted target never appears
in the discovery result (for any limit and any queried rule set, hence
neither in `--list-targets` output nor in the report rows derived from it),
and a denylisted conformance-suite pseudo-target is dropped from the bulk
artifact list. -/
theorem denylist_excluded (limit : Option Int) (rules : List BazelRule)
    (files : List (String × String)) (t p : String)
    (ht : t ∈ DENYLIST) (hp : p ∈ DENYLIST) :
    t ∉ get_targets limit none rules
      ∧ p ∉ (get_riscv_test_artifacts files).map Prod.fst := by
  constructor
  · intro hmem
    rw [get_targets_none] at hmem
    have h1 : t ∈ discoverTargets rules := mem_pySliceLimit hmem
    simp only [discoverTargets] at h1
    have h2 : t ∈ rules.filterMap targetCandidate :=
      (List.mem_insertionSort _).mp h1
    obtain ⟨r, hr, hcand⟩ := List.mem_filterMap.mp h2
    obtain ⟨hEq, hDeny, _⟩ := targetCandidate_some hcand
    exact hDeny (hEq ▸ ht)
  · intro hmem
    simp only [get_riscv_test_artifacts] at hmem
    obtain ⟨pr, hpr, hfst⟩ := List.mem_map.mp hmem
    have hpr2 : pr ∈ files.filterMap riscvCandidate :=
      (List.mem_insertionSort _).mp hpr
    obtain ⟨rf, hrf, hcand⟩ := List.mem_filterMap.mp hpr2
    exact riscvCandidate_notDenied hcand (hfst ▸ hp)

/-- C8 witness: the theorem applied to a denylisted rule and to a walked file
whose pseudo-target is denylisted; neither survives into the outputs. -/
theorem denylist_excluded_witness :
    "//tests/cocotb/rvv:vill_test" ∉ get_targets none none
        [⟨"//tests/cocotb/rvv:vill_test", some "//tests/cocotb/rvv:vill_test.ld"⟩]
      ∧ "//third_party/riscv-tests:rv32ui-p-fence_i" ∉
          (get_riscv_test_artifacts [("bazel-out", "rv32ui-p-fence_i")]).map
            Prod.fst :=
  denylist_excluded none
    [⟨"//tests/cocotb/rvv:vill_test", some "//tests/cocotb/rvv:vill_test.ld"⟩]
    [("bazel-out", "rv32ui-p-fence_i")] "//tests/cocotb/rvv:vill_test"
    "//third_party/riscv-tests:rv32ui-p-fence_i" (by decide) (by decide)

/-- C9: a queried build-graph entry appears in the catalog exactly when it is
not denylisted and declares a linker-script attribute equal to the expected
default `<package>:<name>.ld` computed from its label (entries with an absent
attribute or a differing script are excluded), and the returned catalog is
sorted. -/
theorem catalog_linker_filter (rules : List BazelRule) (t : String) :
    (t ∈ get_targets none none rules ↔
        t ∉ DENYLIST ∧ ∃ r ∈ rules, r.name = t ∧
          r.linker_script = some (expectedLinkerScript t))
      ∧ List.Sorted (fun a b : String => a ≤ b) (get_targets none none rules) := by
  constructor
  · constructor
    · intro hmem
      rw [get_targets_none] at hmem
      have h1 : t ∈ rules.filterMap targetCandidate := by
        have h0 : t ∈ discoverTargets rules := mem_pySliceLimit hmem
        simp only [discoverTargets] at h0
        exact (List.mem_insertionSort _).mp h0
      obtain ⟨r, hr, hcand⟩ := List.mem_filterMap.mp h1
      obtain ⟨hEq, hDeny, hLs⟩ := targetCandidate_some hcand
      subst hEq
      exact ⟨hDeny, r, hr, rfl, hLs⟩
    · rintro ⟨hDeny, r, hr, hname, hls⟩
      show t ∈ pySliceLimit none (discoverTargets rules)
      simp only [pySliceLimit, discoverTargets]
      rw [List.mem_insertionSort]
      refine List.mem_filterMap.mpr ⟨r, hr, ?_⟩
      unfold targetCandidate
      rw [hname, hls]
      simp [hDeny]
  · show List.Sorted _ (pySliceLimit none (discoverTargets rules))
    simp only [pySliceLimit, discoverTargets]
    exact List.sorted_insertionSort _ _

/-- C2 (amended): the run continues past build failures, but a target whose
artifact path cannot be resolved is silently omitted from the prepared test
list (and hence from the report), and a test whose recorded source ELF is
absent at run time yields a `FAIL` row with reason
`"ELF source not found (Build failed?)"` — not a `BUILD_ARTIFACT_MISSING`
row, which can only arise from `run_uvm`'s own existence check. -/
theorem unresolved_artifact_dropped (sts : List String)
    (riscv : List (String × String)) (resolve : String → Option String)
    (t : String) (hres : resolve t = none)
    (hrv : ∀ pr ∈ riscv, pr.1 ≠ t) :
    (∀ pr ∈ prepare_tests false none none sts riscv resolve, pr.1 ≠ t)
      ∧ (∀ env : TestEnv, env.elfPresent = false →
          processTest env = ("FAIL", "ELF source not found (Build failed?)", "")) := by
  constructor
  · intro pr hpr
    simp only [prepare_tests, pySliceLimit, if_neg Bool.false_ne_true] at hpr
    rcases List.mem_append.mp hpr with h | h
    · exact hrv pr (List.mem_filter.mp h).1
    · obtain ⟨u, hu, hf⟩ := List.mem_filterMap.mp h
      simp only [targetMatches, if_true] at hf
      split at hf
      next elf heq =>
        split_ifs at hf
        injection hf with hf2
        intro hEq
        rw [← hf2] at hEq
        simp only at hEq
        rw [hEq] at heq
        rw [heq] at hres
        exact absurd hres (by simp)
      next heq => exact absurd hf (by simp)
  · intro env he
    simp [processTest, he]

/-- C2 witness: the theorem's second part applied to a concrete test
environment whose source ELF is missing. -/
theorem unresolved_artifact_dropped_witness :
    processTest ⟨false, Except.ok (), true, fun _ => Except.ok (0, "")⟩
      = ("FAIL", "ELF source not found (Build failed?)", "") :=
  (unresolved_artifact_dropped [] [] (fun _ => none) "x" rfl (by simp)).2
    ⟨false, Except.ok (), true, fun _ => Except.ok (0, "")⟩ rfl

/-- C2 counterexample: a discovered, non-denylisted target whose build failed
does not surface as a `BUILD_ARTIFACT_MISSING` row — if its artifact path
cannot be resolved it is dropped from the prepared tests entirely, and if the
resolved file is absent its row has status `FAIL`. -/
theorem build_failure_row_counterexample :
    prepare_tests false none none ["//a:t"] [] (fun _ => none) = []
      ∧ (processTest ⟨false, Except.ok (), false,
            fun _ => Except.ok (0, "x")⟩).1 = "FAIL" := by
  exact ⟨rfl, rfl⟩

/-- C1 (code-bug evaluation): source line 656 tests only the `status`
variable left over from the final loop iteration, so a regression whose first
test fails and whose last test passes produces a report containing a `FAIL`
row yet exits with status 0. -/
theorem exit_code_checks_only_last_row :
    regressionRows
        [("//a:t1", ⟨true, Except.ok (), true, fun _ => Except.ok (1, "boom")⟩),
         ("//a:t2", ⟨true, Except.ok (), true, fun _ => Except.ok (0, "ok")⟩)]
      = [("//a:t1", "FAIL", "Make failed: boom"), ("//a:t2", "PASS", "None")]
      ∧ regressionExit
        [("//a:t1", ⟨true, Except.ok (), true, fun _ => Except.ok (1, "boom")⟩),
         ("//a:t2", ⟨true, Except.ok (), true, fun _ => Except.ok (0, "ok")⟩)]
        = some 0 := by
  exact ⟨rfl, rfl⟩
